import Mathlib

/-!
Verification of the validation and submit/reset logic of `Formular.py`,
a Tkinter registration form.  The validator (`parse_form_data`) reads five
raw strings (Vorname, Nachname, E-Mail, Alter, Kommentare), trims them,
checks the required fields, a weak email heuristic and a positive integer
age, and either returns a `RegistrationData` record or signals one of three
validation errors (raised as `ValueError` with a German message in the
source; the taxonomy names are `MissingRequiredField`, `InvalidEmailFormat`,
`InvalidAge`).  The GUI submit handler (`handle_submit`) shows an error
dialog on failure, and on success shows an info dialog and resets all
fields (`reset_form`).
-/

/-- The whitespace characters removed by Python `str.strip()`
(modelled over the ASCII whitespace characters). -/
def pyIsSpace (c : Char) : Bool :=
  c = ' ' || c = '\t' || c = '\n' || c = '\r' || c = '\x0b' || c = '\x0c'

/-- Python `str.strip()` on the underlying character list: drop whitespace
from the front and from the back. -/
def pyStripList (l : List Char) : List Char :=
  ((l.dropWhile pyIsSpace).reverse.dropWhile pyIsSpace).reverse

/-- Python `str.strip()`: remove leading and trailing whitespace. -/
def pyStrip (s : String) : String :=
  String.mk (pyStripList s.data)

/-- Digits of a Python decimal integer literal, grammar `digit (["_"] digit)*`;
`acc` is the value of the digits consumed so far.  A `_` must be followed by
a digit; any other non-digit character makes the parse fail. -/
def pyDigitsAux : Nat → List Char → Option Nat
  | acc, [] => some acc
  | acc, '_' :: d :: rest =>
      if d.isDigit then pyDigitsAux (acc * 10 + (d.toNat - 48)) rest else none
  | acc, c :: rest =>
      if c.isDigit then pyDigitsAux (acc * 10 + (c.toNat - 48)) rest else none

/-- Parse a nonempty digit string (with optional single underscores between
digits, as Python's `int` accepts). -/
def pyParseDigits : List Char → Option Nat
  | [] => none
  | c :: rest => if c.isDigit then pyDigitsAux (c.toNat - 48) rest else none

/-- Python `int(s)` for base 10: strip surrounding whitespace, accept an
optional `+` or `-` sign followed by a nonempty digit string; any other
input raises `ValueError`, modelled as `none`. -/
def pyInt (s : String) : Option Int :=
  match pyStripList s.data with
  | '+' :: rest => (pyParseDigits rest).map (fun k => (k : Int))
  | '-' :: rest => (pyParseDigits rest).map (fun k => -(k : Int))
  | l => (pyParseDigits l).map (fun k => (k : Int))

/-- The three user-input failures of the validator.  In the source each is a
`ValueError` with a distinct German message (see `error_message`); the spec
names them `MissingRequiredField`, `InvalidEmailFormat`, `InvalidAge`. -/
inductive ValidationError
  | MissingRequiredField
  | InvalidEmailFormat
  | InvalidAge
  deriving DecidableEq

/-- The dataclass `RegistrationData` of the source: the validated form
contents. -/
structure RegistrationData where
  first_name : String
  last_name : String
  email : String
  age : Int
  comments : String
  deriving DecidableEq

/-- `parse_form_data` of the source: trim the five raw inputs, then
(1) fail with `MissingRequiredField` if any of the four required trimmed
fields is empty (`not all([...])` on the truthiness of the strings),
(2) fail with `InvalidEmailFormat` if the trimmed email lacks `@` or `.`,
(3) parse the trimmed age text with `int` and fail with `InvalidAge` if the
parse fails or the value is `≤ 0`; otherwise return the
`RegistrationData` built from the trimmed values and the parsed age. -/
def parse_form_data (vorname nachname email alter comments : String) :
    Except ValidationError RegistrationData :=
  if pyStrip vorname = "" ∨ pyStrip nachname = "" ∨ pyStrip email = "" ∨
      pyStrip alter = "" then
    Except.error ValidationError.MissingRequiredField
  else if '@' ∉ (pyStrip email).data ∨ '.' ∉ (pyStrip email).data then
    Except.error ValidationError.InvalidEmailFormat
  else
    match pyInt (pyStrip alter) with
    | none => Except.error ValidationError.InvalidAge
    | some age =>
        if age ≤ 0 then Except.error ValidationError.InvalidAge
        else
          Except.ok (RegistrationData.mk (pyStrip vorname) (pyStrip nachname)
            (pyStrip email) age (pyStrip comments))

/-- The German `ValueError` message raised by the source for each failure. -/
def error_message : ValidationError → String
  | ValidationError.MissingRequiredField => "Bitte füllen Sie alle Pflichtfelder aus."
  | ValidationError.InvalidEmailFormat => "Bitte geben Sie eine gültige E-Mail-Adresse ein."
  | ValidationError.InvalidAge => "Alter muss eine positive Zahl sein."

/-- The success message shown by `handle_submit` (`str.format` on the
dataclass). -/
def success_message (d : RegistrationData) : String :=
  "Vielen Dank, " ++ d.first_name ++ " " ++ d.last_name ++ "!\n\n" ++
    "Wir haben Ihre Daten erhalten und melden uns unter " ++ d.email ++ "."

/-- The raw contents of the five input widgets: the four `StringVar`s of
`build_form_fields` plus the text of the comments `Text` widget. -/
structure FormState where
  vorname : String
  nachname : String
  email : String
  alter : String
  comments : String
  deriving DecidableEq

/-- A modal dialog shown via `messagebox`: `showerror` or `showinfo`,
each with a title and a message. -/
inductive Dialog
  | showerror (title message : String)
  | showinfo (title message : String)
  deriving DecidableEq

/-- `reset_form` of the source: set every `StringVar` to `""` and delete the
whole contents of the comments widget, for any current state. -/
def reset_form (_s : FormState) : FormState :=
  FormState.mk "" "" "" "" ""

/-- `handle_submit` of the source: run `parse_form_data` on the current
field contents; on `ValueError` show the error dialog (title `Fehler`) and
return leaving the fields untouched; on success show the info dialog
(title `Erfolg`) and then call `reset_form`.  The result pairs the field
state after the handler with the dialog it showed. -/
def handle_submit (s : FormState) : FormState × Dialog :=
  match parse_form_data s.vorname s.nachname s.email s.alter s.comments with
  | Except.error e => (s, Dialog.showerror "Fehler" (error_message e))
  | Except.ok d => (reset_form s, Dialog.showinfo "Erfolg" (success_message d))

/-- The outcome tag of a validation run: `some e` for a failure with error
`e`, `none` for success (discarding the record). -/
def validation_outcome :
    Except ValidationError RegistrationData → Option ValidationError
  | Except.error e => some e
  | Except.ok _ => none

/-- Shared characterization of the success branch: when the required-field
condition and the email condition are both false, the age text parses to
`k` and `k` is not `≤ 0`, the validator returns the record of trimmed
values with age `k`. -/
lemma parse_ok_spec (v n e a c : String)
    (h1 : ¬(pyStrip v = "" ∨ pyStrip n = "" ∨ pyStrip e = "" ∨ pyStrip a = ""))
    (h2 : ¬('@' ∉ (pyStrip e).data ∨ '.' ∉ (pyStrip e).data))
    (k : Int) (hp : pyInt (pyStrip a) = some k) (hk : ¬ k ≤ 0) :
    parse_form_data v n e a c =
      Except.ok (RegistrationData.mk (pyStrip v) (pyStrip n) (pyStrip e) k
        (pyStrip c)) := by
  simp [parse_form_data, h1, h2, hp, hk]

/-- Claim C1: the three rules are decided in a fixed order with first
failure winning: whenever the required-field condition holds the result is
`MissingRequiredField` whatever the email and age contain, and whenever all
required fields are present but the email condition holds the result is
`InvalidEmailFormat` whatever the age contains (never `InvalidAge`). -/
theorem C1_rules_ordered_first_failure (v n e a c : String) :
    ((pyStrip v = "" ∨ pyStrip n = "" ∨ pyStrip e = "" ∨ pyStrip a = "") →
      parse_form_data v n e a c =
        Except.error ValidationError.MissingRequiredField) ∧
    (¬(pyStrip v = "" ∨ pyStrip n = "" ∨ pyStrip e = "" ∨ pyStrip a = "") →
      ('@' ∉ (pyStrip e).data ∨ '.' ∉ (pyStrip e).data) →
      parse_form_data v n e a c =
        Except.error ValidationError.InvalidEmailFormat) := by
  constructor
  · intro h1
    simp [parse_form_data, h1]
  · intro h1 h2
    simp [parse_form_data, h1, h2]

/-- Witness for C1: an input with an empty required field, a malformed email
and a bad age yields `MissingRequiredField`; an input with all required
fields present but both a malformed email and a bad age yields
`InvalidEmailFormat`. -/
theorem C1_rules_ordered_first_failure_witness :
    parse_form_data "   " "Muster" "annaexample" "-5" "" =
      Except.error ValidationError.MissingRequiredField ∧
    parse_form_data "Anna" "Muster" "annaexample" "-5" "" =
      Except.error ValidationError.InvalidEmailFormat :=
  ⟨(C1_rules_ordered_first_failure "   " "Muster" "annaexample" "-5" "").1
      (by decide),
   (C1_rules_ordered_first_failure "Anna" "Muster" "annaexample" "-5" "").2
      (by decide) (by decide)⟩

/-- Claim C2: for every input, validation fails with `MissingRequiredField`
exactly when one of the four required fields is empty after trimming; the
comments string plays no role in this condition (it is universally
quantified and absent from the right-hand side), so empty comments never
trigger this failure. -/
theorem C2_missing_required_iff (v n e a c : String) :
    parse_form_data v n e a c =
        Except.error ValidationError.MissingRequiredField ↔
      (pyStrip v = "" ∨ pyStrip n = "" ∨ pyStrip e = "" ∨ pyStrip a = "") := by
  by_cases h1 : (pyStrip v = "" ∨ pyStrip n = "" ∨ pyStrip e = "" ∨
      pyStrip a = "")
  · simp [parse_form_data, h1]
  · by_cases h2 : ('@' ∉ (pyStrip e).data ∨ '.' ∉ (pyStrip e).data)
    · simp [parse_form_data, h1, h2]
    · cases hp : pyInt (pyStrip a) with
      | none => simp [parse_form_data, h1, h2, hp]
      | some k => by_cases hk : k ≤ 0 <;> simp [parse_form_data, h1, h2, hp, hk]

/-- Claim C3: for every input, validation fails with `InvalidEmailFormat`
exactly when the four required fields are non-empty after trimming and the
trimmed email lacks `@` or lacks `.`; in particular an email containing
both characters never produces this error. -/
theorem C3_invalid_email_iff (v n e a c : String) :
    parse_form_data v n e a c =
        Except.error ValidationError.InvalidEmailFormat ↔
      (¬(pyStrip v = "" ∨ pyStrip n = "" ∨ pyStrip e = "" ∨ pyStrip a = "") ∧
        ('@' ∉ (pyStrip e).data ∨ '.' ∉ (pyStrip e).data)) := by
  by_cases h1 : (pyStrip v = "" ∨ pyStrip n = "" ∨ pyStrip e = "" ∨
      pyStrip a = "")
  · simp [parse_form_data, h1]
  · by_cases h2 : ('@' ∉ (pyStrip e).data ∨ '.' ∉ (pyStrip e).data)
    · simp [parse_form_data, h1, h2]
    · cases hp : pyInt (pyStrip a) with
      | none => simp [parse_form_data, h1, h2, hp]
      | some k => by_cases hk : k ≤ 0 <;> simp [parse_form_data, h1, h2, hp, hk]

/-- Claim C4: when the required-field and email checks pass, validation
fails with `InvalidAge` exactly when the trimmed age text does not parse as
a base-10 integer or parses to a value `≤ 0`. -/
theorem C4_invalid_age_iff (v n e a c : String)
    (h1 : ¬(pyStrip v = "" ∨ pyStrip n = "" ∨ pyStrip e = "" ∨
      pyStrip a = ""))
    (h2 : ¬('@' ∉ (pyStrip e).data ∨ '.' ∉ (pyStrip e).data)) :
    parse_form_data v n e a c = Except.error ValidationError.InvalidAge ↔
      (pyInt (pyStrip a) = none ∨
        ∃ k, pyInt (pyStrip a) = some k ∧ k ≤ 0) := by
  cases hp : pyInt (pyStrip a) with
  | none => simp [parse_form_data, h1, h2, hp]
  | some k => by_cases hk : k ≤ 0 <;> simp [parse_form_data, h1, h2, hp, hk]

/-- Witness for C4: with valid names and email, age text `"0"` yields
`InvalidAge`. -/
theorem C4_invalid_age_iff_witness :
    parse_form_data "Anna" "Muster" "anna@example.com" "0" "" =
      Except.error ValidationError.InvalidAge :=
  (C4_invalid_age_iff "Anna" "Muster" "anna@example.com" "0" ""
      (by decide) (by decide)).mpr
    (Or.inr ⟨0, by decide, by decide⟩)

/-- Claim C5: when all three rules pass, validation returns the
`RegistrationData` whose name, email and comments fields are the trimmed
raw inputs and whose age is the parsed positive integer. -/
theorem C5_success_record (v n e a c : String)
    (h1 : ¬(pyStrip v = "" ∨ pyStrip n = "" ∨ pyStrip e = "" ∨
      pyStrip a = ""))
    (h2 : ¬('@' ∉ (pyStrip e).data ∨ '.' ∉ (pyStrip e).data))
    (k : Int) (hp : pyInt (pyStrip a) = some k) (hk : 0 < k) :
    parse_form_data v n e a c =
      Except.ok (RegistrationData.mk (pyStrip v) (pyStrip n) (pyStrip e) k
        (pyStrip c)) :=
  parse_ok_spec v n e a c h1 h2 k hp (not_le.mpr hk)

/-- Witness for C5: raw first name `"  Anna  "` is stored as `"Anna"`, and
comments may be the empty string. -/
theorem C5_success_record_witness :
    parse_form_data "  Anna  " "Muster" "anna@example.com" "30" "" =
      Except.ok (RegistrationData.mk "Anna" "Muster" "anna@example.com" 30
        "") :=
  (C5_success_record "  Anna  " "Muster" "anna@example.com" "30" ""
      (by decide) (by decide) 30 (by decide) (by decide)).trans rfl

/-- Claim C6: validation is deterministic and pure: it is a total function
of the five raw field strings (it neither reads nor writes any other
state in this embedding), so two invocations on equal raw fields yield
equal results, valid or invalid. -/
theorem C6_validate_deterministic (v1 n1 e1 a1 c1 v2 n2 e2 a2 c2 : String)
    (hv : v1 = v2) (hn : n1 = n2) (he : e1 = e2) (ha : a1 = a2)
    (hc : c1 = c2) :
    parse_form_data v1 n1 e1 a1 c1 = parse_form_data v2 n2 e2 a2 c2 := by
  subst hv hn he ha hc
  rfl

/-- Witness for C6: validating the same valid input twice yields equal
results. -/
theorem C6_validate_deterministic_witness :
    parse_form_data "Anna" "Muster" "anna@example.com" "30" "hi" =
      parse_form_data "Anna" "Muster" "anna@example.com" "30" "hi" :=
  C6_validate_deterministic "Anna" "Muster" "anna@example.com" "30" "hi"
    "Anna" "Muster" "anna@example.com" "30" "hi" rfl rfl rfl rfl rfl

/-- Claim C7: on every validation failure the submit flow leaves all five
field contents unchanged and shows the modal error dialog; `reset_form` is
not invoked (the resulting state is the original one, not the cleared
one). -/
theorem C7_failure_preserves_fields (s : FormState) (e : ValidationError)
    (h : parse_form_data s.vorname s.nachname s.email s.alter s.comments =
      Except.error e) :
    handle_submit s = (s, Dialog.showerror "Fehler" (error_message e)) := by
  simp [handle_submit, h]

/-- Witness for C7: submitting a form with empty required fields shows the
`MissingRequiredField` error dialog and leaves the field contents,
including the comments, exactly as they were. -/
theorem C7_failure_preserves_fields_witness :
    handle_submit (FormState.mk "x" "" "" "" "keep me") =
      (FormState.mk "x" "" "" "" "keep me",
        Dialog.showerror "Fehler"
          (error_message ValidationError.MissingRequiredField)) :=
  C7_failure_preserves_fields (FormState.mk "x" "" "" "" "keep me")
    ValidationError.MissingRequiredField rfl

/-- Claim C8: `reset_form` clears all five field contents back to empty
whatever the current state (the standalone Reset action), and after every
successful submission `handle_submit` invokes it, showing the success
dialog and leaving the cleared state. -/
theorem C8_reset_after_success (s : FormState) :
    reset_form s = FormState.mk "" "" "" "" "" ∧
    ∀ d, parse_form_data s.vorname s.nachname s.email s.alter s.comments =
        Except.ok d →
      handle_submit s =
        (reset_form s, Dialog.showinfo "Erfolg" (success_message d)) := by
  refine ⟨rfl, fun d h => ?_⟩
  simp [handle_submit, h]

/-- Witness for C8: resetting a filled form clears it, and a successful
submission ends in the cleared state with the success dialog. -/
theorem C8_reset_after_success_witness :
    reset_form (FormState.mk "Anna" "Muster" "anna@example.com" "30" "hi") =
      FormState.mk "" "" "" "" "" ∧
    handle_submit (FormState.mk "Anna" "Muster" "anna@example.com" "30" "hi") =
      (reset_form (FormState.mk "Anna" "Muster" "anna@example.com" "30" "hi"),
        Dialog.showinfo "Erfolg"
          (success_message
            (RegistrationData.mk "Anna" "Muster" "anna@example.com" 30
              "hi"))) :=
  ⟨(C8_reset_after_success
      (FormState.mk "Anna" "Muster" "anna@example.com" "30" "hi")).1,
   (C8_reset_after_success
      (FormState.mk "Anna" "Muster" "anna@example.com" "30" "hi")).2
     (RegistrationData.mk "Anna" "Muster" "anna@example.com" 30 "hi") rfl⟩

/-- Claim C9 (Scenario A): the concrete input Vorname `"Anna"`, Nachname
`"Muster"`, E-Mail `"anna@example.com"`, Alter `"30"` and empty comments
validates successfully to exactly the record
`(Anna, Muster, anna@example.com, 30, "")`. -/
theorem C9_scenario_a :
    parse_form_data "Anna" "Muster" "anna@example.com" "30" "" =
      Except.ok (RegistrationData.mk "Anna" "Muster" "anna@example.com" 30
        "") :=
  rfl

/-- Claim C10: the comments value never influences the validation outcome:
two inputs agreeing on the four required fields and differing only in
comments yield the same outcome tag (success, or the same error), and on
success the comments appear, trimmed, in the record. -/
theorem C10_comments_noninterference (v n e a c1 c2 : String) :
    validation_outcome (parse_form_data v n e a c1) =
      validation_outcome (parse_form_data v n e a c2) ∧
    ∀ d, parse_form_data v n e a c1 = Except.ok d →
      d.comments = pyStrip c1 := by
  constructor
  · by_cases h1 : (pyStrip v = "" ∨ pyStrip n = "" ∨ pyStrip e = "" ∨
        pyStrip a = "")
    · simp [parse_form_data, h1]
    · by_cases h2 : ('@' ∉ (pyStrip e).data ∨ '.' ∉ (pyStrip e).data)
      · simp [parse_form_data, h1, h2]
      · cases hp : pyInt (pyStrip a) with
        | none => simp [parse_form_data, h1, h2, hp]
        | some k =>
            by_cases hk : k ≤ 0 <;>
              simp [parse_form_data, validation_outcome, h1, h2, hp, hk]
  · intro d hd
    by_cases h1 : (pyStrip v = "" ∨ pyStrip n = "" ∨ pyStrip e = "" ∨
        pyStrip a = "")
    · simp [parse_form_data, h1] at hd
    · by_cases h2 : ('@' ∉ (pyStrip e).data ∨ '.' ∉ (pyStrip e).data)
      · simp [parse_form_data, h1, h2] at hd
      · cases hp : pyInt (pyStrip a) with
        | none => simp [parse_form_data, h1, h2, hp] at hd
        | some k =>
            by_cases hk : k ≤ 0
            · simp [parse_form_data, h1, h2, hp, hk] at hd
            · rw [parse_ok_spec v n e a c1 h1 h2 k hp hk] at hd
              injection hd with hd2
              subst hd2
              rfl

/-- Witness for C10: changing only the comments does not change a
successful outcome, and the comments of the returned record are the
trimmed raw comments. -/
theorem C10_comments_noninterference_witness :
    validation_outcome
        (parse_form_data "Anna" "Muster" "anna@example.com" "30"
          "a long comment") =
      validation_outcome
        (parse_form_data "Anna" "Muster" "anna@example.com" "30" "") ∧
    (RegistrationData.mk "Anna" "Muster" "anna@example.com" 30
        "hi").comments = pyStrip " hi " :=
  ⟨(C10_comments_noninterference "Anna" "Muster" "anna@example.com" "30"
      "a long comment" "").1,
   (C10_comments_noninterference "Anna" "Muster" "anna@example.com" "30"
      " hi " "").2
     (RegistrationData.mk "Anna" "Muster" "anna@example.com" 30 "hi") rfl⟩
